import Mathlib

/-!
Verification of the kops OpenStack resource-convergence code
(`upup/pkg/fi/cloudup/openstacktasks/lb.go`,
`upup/pkg/fi/cloudup/openstack/cloud.go`,
`upup/pkg/fi/cloudup/openstack/apitarget.go`) against its design
specification.

Go pointer-typed optional fields (`*string` etc.) are embedded as
`Option`; Go `(value, error)` multi-returns are embedded as `Except` or
as pairs with an `Option String` error component; provider/API calls are
embedded as fields of an explicit provider record, and functions that
talk to the provider additionally return a trace (list) of the provider
calls they issued, so that "no provider call" claims are statable.
-/

namespace Kops

/-- Model of `gophercloud` `loadbalancers.LoadBalancer` (the fields the
code reads: `ID`, `Name`, `VipPortID`, `VipSubnetID`). -/
structure LoadBalancer where
  ID : String
  Name : String
  VipPortID : String
  VipSubnetID : String
deriving DecidableEq, Repr

/-- Model of `gophercloud` `subnets.Subnet` (the fields the code reads:
`ID`, `Name`). -/
structure SubnetInfo where
  ID : String
  Name : String
deriving DecidableEq, Repr

/-- Model of `gophercloud` `listeners.Listener` (the LB task only stores
it; no field of it is read in the sources, so the identifier suffices). -/
structure ListenerInfo where
  ID : String
deriving DecidableEq, Repr

/-- Model of `fi.Lifecycle` (a string-typed tag in Go). -/
abbrev Lifecycle : Type := String

/-- The `LB` task struct from `openstacktasks/lb.go`.  Every Go field is a
pointer, hence `Option` here. -/
structure LB where
  ID : Option String
  Name : Option String
  Listener : Option ListenerInfo
  Subnet : Option String
  VipSubnet : Option String
  Lifecycle : Option Lifecycle
  PortID : Option String
deriving DecidableEq, Repr

/-- The `fi` package error constructors used by `LB.CheckChanges`:
`fi.RequiredField` and `fi.CannotChangeField`. -/
inductive FiError where
  | requiredField (field : String)
  | cannotChangeField (field : String)
deriving DecidableEq, Repr

/-- Embeds `LB.CheckChanges(a, e, changes *LB) error` from `lb.go`.  `a` (the
actual state) may be nil; `e` and `changes` are dereferenced by the code,
so they are embedded as plain values.  A `none` result is the Go `nil`
error.  The function's Go signature carries no target or cloud handle, so
it can issue no provider call. -/
def LB.CheckChanges (a : Option LB) (e changes : LB) : Option FiError :=
  match a with
  | none =>
    if e.Name = none then some (.requiredField "Name") else none
  | some _ =>
    if changes.ID ≠ none then some (.cannotChangeField "ID")
    else if changes.Name ≠ none then some (.cannotChangeField "Name")
    else none

/-- One provider (OpenStack API) call, as issued by the LB task code.
`updateLB` is the update call the specification describes; it appears in
no function of the source, and is present here so that claims about
update calls are statable. -/
inductive ProviderCall where
  | getLB (id : String)
  | getSubnet (id : String)
  | listSubnets (name : String)
  | createLB (name : String) (vipSubnetID : String)
  | updateLB (id : String)
deriving DecidableEq, Repr

/-- The provider operations the LB task code reaches, as behaviour:
`getLB` is `loadbalancers.Get(...).Extract()`, `getSubnet` is
`subnets.Get(...).Extract()`, `listSubnets` is `Cloud.ListSubnets` with a
name filter, `createLB` is `Cloud.CreateLB` (the code passes
`CreateOpts{Name, VipSubnetID}`). -/
structure LBCloud where
  getLB : String → Except String LoadBalancer
  getSubnet : String → Except String SubnetInfo
  listSubnets : String → Except String (List SubnetInfo)
  createLB : String → String → Except String LoadBalancer

/-- Embeds `fi.StringValue`: dereference a `*string`, with `""` for nil. -/
def stringValue (s : Option String) : String := s.getD ""

/-- Embeds `NewLBTaskFromCloud` from `lb.go`: looks up the load balancer's VIP
subnet and builds a task with `ID`, `Name`, `Lifecycle`, `Subnet` set
(the remaining fields are left at their zero value, i.e. nil).  Returns
the result together with the trace of provider calls issued. -/
def NewLBTaskFromCloud (cloud : LBCloud) (lifecycle : Option Lifecycle)
    (lb : LoadBalancer) : Except String LB × List ProviderCall :=
  match cloud.getSubnet lb.VipSubnetID with
  | .error e => (.error e, [.getSubnet lb.VipSubnetID])
  | .ok sub =>
      (.ok { ID := some lb.ID, Name := some lb.Name, Listener := none,
             Subnet := some sub.Name, VipSubnet := none,
             Lifecycle := lifecycle, PortID := none },
       [.getSubnet lb.VipSubnetID])

/-- Embeds `LB.Find` from `lb.go`: if the task's `ID` is nil it returns
`(nil, nil)` at once — the distinguished "not found" result, with no
provider call; otherwise it gets the load balancer by `ID` and builds a
task from it via `NewLBTaskFromCloud`.  Returns the result together with
the trace of provider calls issued. -/
def LB.Find (cloud : LBCloud) (s : LB) : Except String (Option LB) × List ProviderCall :=
  match s.ID with
  | none => (.ok none, [])
  | some id =>
    match cloud.getLB id with
    | .error e => (.error e, [.getLB id])
    | .ok lb =>
      match NewLBTaskFromCloud cloud s.Lifecycle lb with
      | (.error e, calls) => (.error e, .getLB id :: calls)
      | (.ok task, calls) => (.ok (some task), .getLB id :: calls)

/-- Embeds `LB.RenderOpenstack` from `lb.go`.  When `a` (actual) is nil: list
subnets by the expected `Subnet` name, require exactly one, create the
load balancer with `CreateOpts{Name: e.Name, VipSubnetID: subnets[0].ID}`,
and on success populate `e.ID`, `e.PortID`, `e.VipSubnet` from the
response.  When `a` is non-nil the function logs "did nothing" and
returns nil: no call is issued and `e` is not modified.  Returns the
(possibly updated) expected task or the error, together with the trace of
provider calls issued. -/
def LB.RenderOpenstack (cloud : LBCloud) (a : Option LB) (e _changes : LB) :
    Except String LB × List ProviderCall :=
  match a with
  | some _ => (.ok e, [])
  | none =>
    match cloud.listSubnets (stringValue e.Subnet) with
    | .error err =>
        (.error ("Failed to retrieve subnet `" ++ stringValue e.Subnet ++
          "` in loadbalancer creation: " ++ err),
         [.listSubnets (stringValue e.Subnet)])
    | .ok subnetList =>
      match subnetList with
      | [sub] =>
        match cloud.createLB (stringValue e.Name) sub.ID with
        | .error err =>
            (.error ("error creating LB: " ++ err),
             [.listSubnets (stringValue e.Subnet),
              .createLB (stringValue e.Name) sub.ID])
        | .ok lb =>
            (.ok { e with ID := some lb.ID, PortID := some lb.VipPortID,
                          VipSubnet := some lb.VipSubnetID },
             [.listSubnets (stringValue e.Subnet),
              .createLB (stringValue e.Name) sub.ID])
      | _ =>
          (.error ("Unexpected desired subnets for `" ++ stringValue e.Subnet ++
            "`.  Expected 1, got " ++ toString subnetList.length),
           [.listSubnets (stringValue e.Subnet)])

/-- A concrete provider for evaluating the LB task functions: every
lookup succeeds, there is exactly one subnet named `"subnet-name"`, and
creation returns a fresh load balancer. -/
def exCloud : LBCloud where
  getLB := fun i => .ok ⟨i, "lb-name", "port-1", "subnet-id-1"⟩
  getSubnet := fun i => .ok ⟨i, "subnet-name"⟩
  listSubnets := fun _ => .ok [⟨"subnet-id-1", "subnet-name"⟩]
  createLB := fun n v => .ok ⟨"lb-id-new", n, "port-new", v⟩

/-- A concrete actual LB task (resource already exists). -/
def exActual : LB := ⟨some "id-1", some "lb-name", none, some "subnet-name", none, none, none⟩

/-- A concrete expected LB task. -/
def exExpected : LB := ⟨some "id-1", some "lb-name", none, some "subnet-name", some "new-vip", none, none⟩

/-- A concrete non-empty change set (it proposes a new `VipSubnet`). -/
def exChanges : LB := ⟨none, none, none, none, some "new-vip", none, none⟩

/-- A concrete expected LB task for the creation path (no identifier yet). -/
def exNew : LB := ⟨none, some "lb-name", none, some "subnet-name", none, none, none⟩

/-- Embeds `wait.Backoff` as configured in `cloud.go` (the fields set there).
`Duration` is in nanoseconds (Go `time.Duration`); `Factor` and `Jitter`
stand for the Go float constants, embedded as exact rationals. -/
structure Backoff where
  Duration : Nat
  Factor : ℚ
  Jitter : ℚ
  Steps : Nat
deriving DecidableEq, Repr

/-- Go `time.Second` in nanoseconds. -/
def timeSecond : Nat := 1000000000

/-- Embeds `readBackoff` from `cloud.go`: the backoff strategy for openstack
read retries: `{Duration: time.Second, Factor: 1.5, Jitter: 0.1, Steps: 4}`. -/
def readBackoff : Backoff := ⟨timeSecond, 3/2, 1/10, 4⟩

/-- Embeds `writeBackoff` from `cloud.go`: the backoff strategy for openstack
write retries: `{Duration: time.Second, Factor: 1.5, Jitter: 0.1, Steps: 5}`. -/
def writeBackoff : Backoff := ⟨timeSecond, 3/2, 1/10, 5⟩

/-- Outcome of the retry executor: the last value the wrapped operation
wrote into its captured variable, the Go `(done, err)` pair, and the
number of attempts made. -/
structure RetryOutcome (α : Type) where
  value : Option α
  done : Bool
  err : Option String
  attempts : Nat
deriving DecidableEq, Repr

/-- Modelled from the spec: the loop of `vfs.RetryWithBackoff`
(`util/pkg/vfs`, not among the provided sources).  Spec section 4.3: the
operation is executed up to the policy's maximum attempt count; it
returns a three-way signal — done (stop retrying, success), retry (try
again), or error (stop retrying, propagate immediately); an exhausted
budget without done is reported distinguishably (here `done = false`,
`err = none`, which the call sites map to `wait.ErrWaitTimeout`).  The
operation is indexed by the attempt number and reports
`(value written, done, err)`; sleeping between attempts has no observable
effect in this embedding. -/
def retryGo {α : Type} (op : Nat → Option α × Bool × Option String) :
    Nat → Nat → Option α → RetryOutcome α
  | 0, i, acc => ⟨acc, false, none, i⟩
  | fuel + 1, i, acc =>
    let r := op i
    let acc' := match r.1 with | some x => some x | none => acc
    if r.2.1 then ⟨acc', true, r.2.2, i + 1⟩
    else
      match r.2.2 with
      | some e => ⟨acc', false, some e, i + 1⟩
      | none => retryGo op fuel (i + 1) acc'

/-- Modelled from the spec: `vfs.RetryWithBackoff` with an attempt budget
of `steps`. -/
def RetryWithBackoff {α : Type} (steps : Nat)
    (op : Nat → Option α × Bool × Option String) : RetryOutcome α :=
  retryGo op steps 0 none

/-- Model of `cinder.Volume` (no field of it is read in the sources). -/
structure Volume where
  ID : String
deriving DecidableEq, Repr

/-- Model of `volumeattach.VolumeAttachment` (no field read). -/
structure VolumeAttachment where
  ID : String
deriving DecidableEq, Repr

/-- Opaque model of the pager result of `cinder.List(...).AllPages()`. -/
structure VolumePages where
  raw : Nat
deriving DecidableEq, Repr

/-- The cinder/nova provider operations the retry-wrapped functions of
`cloud.go` reach, as behaviour indexed by the attempt number (so a
provider whose answers change between attempts can be modelled).
`listPages` is `cinder.List(...).AllPages()`, `extractVolumes` is
`cinder.ExtractVolumes`, `createVolume` is `cinder.Create(...).Extract()`,
`attachVolume (serverID) (volumeID)` is `volumeattach.Create(...)`,
`updateVolume (id) (tags)` is `cinder.Update(...)` with
`UpdateOpts{Metadata: tags}`. -/
structure CinderProvider where
  listPages : Nat → Except String VolumePages
  extractVolumes : VolumePages → Except String (List Volume)
  createVolume : Nat → Except String Volume
  attachVolume : String → String → Nat → Except String VolumeAttachment
  updateVolume : String → List (String × String) → Nat → Except String Volume

/-- The message of `wait.ErrWaitTimeout`. -/
def errWaitTimeout : String := "timed out waiting for the condition"

/-- The common error epilogue of `ListVolumes`, `CreateVolume` and
`SetVolumeTags` in `cloud.go` (and, provably, of `AttachVolume`): a retry
error is returned as is; done means success; an exhausted budget becomes
`wait.ErrWaitTimeout`. -/
def retryErrOut {α : Type} (r : RetryOutcome α) : Option String :=
  match r.err with
  | some e => some e
  | none => if r.done then none else some errWaitTimeout

/-- The retry closure of `openstackCloud.ListVolumes`: list all pages,
extract the volumes, store them in the captured variable and signal done;
any failure is wrapped and returned as the closure's error.  (The Go
message interpolates the unprintable list options with `%v`; that part of
the text is omitted here.) -/
def listVolumesOp (p : CinderProvider) (i : Nat) :
    Option (List Volume) × Bool × Option String :=
  match p.listPages i with
  | .error e => (none, false, some ("error listing volumes: " ++ e))
  | .ok pages =>
    match p.extractVolumes pages with
    | .error e => (none, false, some ("error extracting volumes from pages: " ++ e))
    | .ok vs => (some vs, true, none)

/-- Embeds `openstackCloud.ListVolumes` from `cloud.go`: run the closure under
the read backoff, then return the captured volumes (Go zero value: the
empty slice) with the retry error, nil error on done, or
`wait.ErrWaitTimeout` when the budget was exhausted without done and
without error. -/
def ListVolumes (p : CinderProvider) : List Volume × Option String :=
  match RetryWithBackoff readBackoff.Steps (listVolumesOp p) with
  | ⟨v, done, err, _⟩ =>
    let volumes := v.getD []
    match err with
    | some e => (volumes, some e)
    | none => if done then (volumes, none) else (volumes, some errWaitTimeout)

/-- The retry closure of `openstackCloud.CreateVolume`.  (As with
`listVolumesOp`, the `%v` of the unprintable create options is omitted
from the message.) -/
def createVolumeOp (p : CinderProvider) (i : Nat) :
    Option Volume × Bool × Option String :=
  match p.createVolume i with
  | .error e => (none, false, some ("error creating volume: " ++ e))
  | .ok v => (some v, true, none)

/-- Embeds `openstackCloud.CreateVolume` from `cloud.go` (same epilogue shape as
`ListVolumes`; the captured variable is a nil pointer, hence `Option`). -/
def CreateVolume (p : CinderProvider) : Option Volume × Option String :=
  match RetryWithBackoff writeBackoff.Steps (createVolumeOp p) with
  | ⟨v, done, err, _⟩ =>
    match err with
    | some e => (v, some e)
    | none => if done then (v, none) else (v, some errWaitTimeout)

/-- The retry closure of `openstackCloud.AttachVolume`. -/
def attachVolumeOp (p : CinderProvider) (serverID volumeID : String) (i : Nat) :
    Option VolumeAttachment × Bool × Option String :=
  match p.attachVolume serverID volumeID i with
  | .error e =>
      (none, false, some ("error attaching volume " ++ volumeID ++ " to server " ++
        serverID ++ ": " ++ e))
  | .ok a => (some a, true, none)

/-- Embeds `openstackCloud.AttachVolume` from `cloud.go`.  Its epilogue is
written differently (`if !done { if err == nil { err = ErrWaitTimeout };
return }; return`) but is embedded verbatim. -/
def AttachVolume (p : CinderProvider) (serverID volumeID : String) :
    Option VolumeAttachment × Option String :=
  match RetryWithBackoff writeBackoff.Steps (attachVolumeOp p serverID volumeID) with
  | ⟨v, done, err, _⟩ =>
    if !done then
      match err with
      | none => (v, some errWaitTimeout)
      | some e => (v, some e)
    else (v, err)

/-- The retry closure of `openstackCloud.SetVolumeTags` (it writes no
captured variable; the extracted volume is discarded).  The Go message
quotes the id with `%q`. -/
def setVolumeTagsOp (p : CinderProvider) (id : String)
    (tags : List (String × String)) (i : Nat) : Option Unit × Bool × Option String :=
  match p.updateVolume id tags i with
  | .error e =>
      (none, false,
       some ("error setting tags to cinder volume \"" ++ id ++ "\": " ++ e))
  | .ok _ => (none, true, none)

/-- Embeds `openstackCloud.SetVolumeTags` from `cloud.go`: empty tag map — return
nil at once; empty volume id — return an error at once; otherwise run the
update closure under the write backoff with the usual epilogue.  The
second component counts the provider update calls issued (the retry
outcome's attempt count; the two early returns issue none), so that
"no provider call" claims are statable. -/
def SetVolumeTags (p : CinderProvider) (id : String)
    (tags : List (String × String)) : Option String × Nat :=
  if tags.length = 0 then (none, 0)
  else if id = "" then (some "error setting tags to unknown volume", 0)
  else
    match RetryWithBackoff writeBackoff.Steps (setVolumeTagsOp p id tags) with
    | ⟨_, done, err, attempts⟩ =>
      match err with
      | some e => (some e, attempts)
      | none => if done then (none, attempts) else (some errWaitTimeout, attempts)

/-- A concrete cinder provider that fails every call with `"boom"`. -/
def cinderFail : CinderProvider where
  listPages := fun _ => .error "boom"
  extractVolumes := fun _ => .error "boom"
  createVolume := fun _ => .error "boom"
  attachVolume := fun _ _ _ => .error "boom"
  updateVolume := fun _ _ _ => .error "boom"

/-- A concrete cinder provider whose calls all succeed. -/
def cinderOk : CinderProvider where
  listPages := fun _ => .ok ⟨0⟩
  extractVolumes := fun _ => .ok [⟨"vol-1"⟩]
  createVolume := fun _ => .ok ⟨"vol-new"⟩
  attachVolume := fun _ _ _ => .ok ⟨"att-1"⟩
  updateVolume := fun _ _ _ => .ok ⟨"vol-1"⟩

/-- Minimal model of the `openstacktasks` `Subnet` task struct
(`GetDependencies` only inspects its dynamic type). -/
structure SubnetTask where
  Name : String
deriving DecidableEq, Repr

/-- Minimal model of the `openstacktasks` `ServerGroup` task struct. -/
structure ServerGroupTask where
  Name : String
deriving DecidableEq, Repr

/-- Minimal model of the `openstacktasks` `Instance` task struct. -/
structure InstanceTask where
  Name : String
deriving DecidableEq, Repr

/-- An `fi.Task` value as the task map holds it: one of the openstack
task kinds the sources mention.  `GetDependencies` type-switches on the
first three; the map can also hold `LB` tasks themselves. -/
inductive Task where
  | subnetTask (t : SubnetTask)
  | serverGroupTask (t : ServerGroupTask)
  | instanceTask (t : InstanceTask)
  | lbTask (t : LB)
deriving DecidableEq, Repr

/-- The type tests of `LB.GetDependencies`: `task.(*Subnet)`,
`task.(*ServerGroup)`, `task.(*Instance)`. -/
def Task.isDependencyKind : Task → Bool
  | .subnetTask _ => true
  | .serverGroupTask _ => true
  | .instanceTask _ => true
  | .lbTask _ => false

/-- Embeds `LB.GetDependencies` from `lb.go`: iterate the task map and collect
every task that is a `*Subnet`, a `*ServerGroup` or an `*Instance`.  (Go
map iteration order is unspecified; the association list fixes one
order.) -/
def LB.GetDependencies (tasks : List (String × Task)) : List Task :=
  (tasks.filter (fun p => p.2.isDependencyKind)).map (fun p => p.2)

/-- The dependency set claim C8 describes, following the spec's words:
the other tasks the LB references through one of its fields.  The `LB`
struct's fields (`ID`, `Name`, `Listener`, `Subnet`, `VipSubnet`,
`Lifecycle`, `PortID`) hold strings and a gophercloud listener value;
none holds a reference to another task (`Subnet` is a subnet *name*, and
the claim itself excludes name string matching), so this set is empty
whatever the task map contains. -/
def LB.fieldReferencedTasks (_e : LB) (_tasks : List (String × Task)) : List Task := []

/-- Model of `servergroups.ServerGroup` (fields read: `ID`, `Name`). -/
structure ServerGroup where
  ID : String
  Name : String
deriving DecidableEq, Repr

/-- Embeds `OpenstackAPITarget.GetIDForServerGroupName` from `apitarget.go`.
`listResult` is the Go multi-return of `Cloud.ListServerGroups()`: the
code binds its error to `_`, discarding it (on a failed listing the Go
convention pairs the error with a nil slice).  The loop returns the first
group whose name matches, else the "ID not found" error. -/
def GetIDForServerGroupName (listResult : List ServerGroup × Option String)
    (sgName : String) : Except String String :=
  match listResult.1.find? (fun g => g.Name == sgName) with
  | some g => .ok g.ID
  | none => .error ("ID not found for Server Group Name " ++ sgName ++ ".")

end Kops

namespace Kops

/-- C1: when the actual state is present, `CheckChanges` rejects a change
set that proposes a new `ID` with `CannotChangeField("ID")`, and (the `ID`
check coming first) a change set that proposes a new `Name` with
`CannotChangeField("Name")`.  `CheckChanges` takes no provider handle, so
no provider call can be issued. -/
theorem C1_checkChanges_immutable (a' : LB) (e changes : LB) :
    (changes.ID ≠ none →
      LB.CheckChanges (some a') e changes = some (.cannotChangeField "ID")) ∧
    (changes.ID = none → changes.Name ≠ none →
      LB.CheckChanges (some a') e changes = some (.cannotChangeField "Name")) := by
  constructor
  · intro hid
    simp [LB.CheckChanges, hid]
  · intro hid hname
    simp [LB.CheckChanges, hid, hname]

/-- Witness for C1 at concrete inputs. -/
theorem C1_checkChanges_immutable_witness :
    LB.CheckChanges (some ⟨some "id-1", some "n", none, none, none, none, none⟩)
        ⟨some "id-2", some "n", none, none, none, none, none⟩
        ⟨some "id-2", none, none, none, none, none, none⟩ =
      some (.cannotChangeField "ID") := by
  exact (C1_checkChanges_immutable ⟨some "id-1", some "n", none, none, none, none, none⟩
    ⟨some "id-2", some "n", none, none, none, none, none⟩
    ⟨some "id-2", none, none, none, none, none, none⟩).1 (by simp)

/-- C2: when the actual state is absent and the expected state's `Name`
is unset, `CheckChanges` returns `RequiredField("Name")`.  `CheckChanges`
takes no provider handle, so no create call can have been issued. -/
theorem C2_checkChanges_requiredName (e changes : LB) (h : e.Name = none) :
    LB.CheckChanges none e changes = some (.requiredField "Name") := by
  simp [LB.CheckChanges, h]

/-- Witness for C2 at concrete inputs. -/
theorem C2_checkChanges_requiredName_witness :
    LB.CheckChanges none ⟨none, none, none, some "subnet-a", none, none, none⟩
        ⟨none, none, none, some "subnet-a", none, none, none⟩ =
      some (.requiredField "Name") :=
  C2_checkChanges_requiredName ⟨none, none, none, some "subnet-a", none, none, none⟩
    ⟨none, none, none, some "subnet-a", none, none, none⟩ rfl

/-- C3 counterexample: on a task whose identifier is unknown but whose
name is set, `Find` issues no provider call at all — in particular no
name-based lookup — and returns the not-found result.  This refutes
"otherwise uses a provider-specific lookup key (e.g. the task's name)". -/
theorem C3_find_counterexample :
    LB.Find exCloud ⟨none, some "lb-name", none, some "subnet-name", none, none, none⟩ =
      (.ok none, []) := rfl

/-- C3 amended: `Find` queries the provider by the task's identifier when
it is known; when the identifier is unknown it issues no provider call
and returns the distinguished "not found" result (`none`), which is not
an error.  With a known identifier it returns a populated actual task or
propagates the lookup error. -/
theorem C3_find_by_id (cloud : LBCloud) (s : LB) :
    (s.ID = none → LB.Find cloud s = (.ok none, [])) ∧
    (∀ i, s.ID = some i →
      (∀ e, cloud.getLB i = .error e → LB.Find cloud s = (.error e, [.getLB i])) ∧
      (∀ lb, cloud.getLB i = .ok lb →
        (∀ e, cloud.getSubnet lb.VipSubnetID = .error e →
          LB.Find cloud s = (.error e, [.getLB i, .getSubnet lb.VipSubnetID])) ∧
        (∀ sub, cloud.getSubnet lb.VipSubnetID = .ok sub →
          LB.Find cloud s =
            (.ok (some { ID := some lb.ID, Name := some lb.Name, Listener := none,
                         Subnet := some sub.Name, VipSubnet := none,
                         Lifecycle := s.Lifecycle, PortID := none }),
             [.getLB i, .getSubnet lb.VipSubnetID]))))  := by
  refine ⟨fun h => by simp [LB.Find, h], fun i hi => ⟨fun e he => ?_, fun lb hlb => ⟨fun e he => ?_, fun sub hsub => ?_⟩⟩⟩
  · simp [LB.Find, hi, he]
  · simp [LB.Find, NewLBTaskFromCloud, hi, hlb, he]
  · simp [LB.Find, NewLBTaskFromCloud, hi, hlb, hsub]

/-- Witness for C3's amended theorem at a concrete task and provider. -/
theorem C3_find_by_id_witness :
    LB.Find exCloud exActual =
      (.ok (some ⟨some "id-1", some "lb-name", none, some "subnet-name", none, none, none⟩),
       [.getLB "id-1", .getSubnet "subnet-id-1"]) :=
  (((C3_find_by_id exCloud exActual).2 "id-1" rfl).2
      ⟨"id-1", "lb-name", "port-1", "subnet-id-1"⟩ rfl).2
    ⟨"subnet-id-1", "subnet-name"⟩ rfl

/-- C4 counterexample: the actual state is present and the change set is
non-empty (it proposes a new `VipSubnet`), yet `RenderOpenstack` issues
no provider call — in particular no update call carrying the changed
fields — and returns the expected task unchanged.  This refutes "Apply
issues an update call carrying only the changed fields". -/
theorem C4_render_counterexample :
    exChanges ≠ ⟨none, none, none, none, none, none, none⟩ ∧
    LB.RenderOpenstack exCloud (some exActual) exExpected exChanges =
      (.ok exExpected, []) :=
  ⟨by simp [exChanges], rfl⟩

/-- C4 amended: when the actual state is present, `RenderOpenstack` is a
no-op regardless of the change set: it issues no provider call (so no
update call) and returns the expected task unchanged without error. -/
theorem C4_render_noop_when_actual (cloud : LBCloud) (a : Option LB) (e changes : LB)
    (a' : LB) (h : a = some a') :
    LB.RenderOpenstack cloud a e changes = (.ok e, []) := by
  subst h; rfl

/-- Witness for C4's amended theorem at concrete inputs. -/
theorem C4_render_noop_when_actual_witness :
    LB.RenderOpenstack exCloud (some exActual) exExpected exChanges =
      (.ok exExpected, []) :=
  C4_render_noop_when_actual exCloud (some exActual) exExpected exChanges exActual rfl

/-- C5: when the actual state is absent, `RenderOpenstack` lists the
subnets matching the expected `Subnet` name and, when exactly one exists,
issues a create call seeded from the expected state (`Name` from
`e.Name`, `VipSubnetID` resolved from `e.Subnet`); on success the task's
`ID`, `PortID` and `VipSubnet` are populated from the provider's response
while every other field is left unchanged. -/
theorem C5_render_create (cloud : LBCloud) (e changes : LB) (sub : SubnetInfo)
    (lb : LoadBalancer)
    (hlist : cloud.listSubnets (stringValue e.Subnet) = .ok [sub])
    (hcreate : cloud.createLB (stringValue e.Name) sub.ID = .ok lb) :
    ∃ e', LB.RenderOpenstack cloud none e changes =
        (.ok e', [.listSubnets (stringValue e.Subnet),
                  .createLB (stringValue e.Name) sub.ID]) ∧
      e'.ID = some lb.ID ∧ e'.PortID = some lb.VipPortID ∧
      e'.VipSubnet = some lb.VipSubnetID ∧
      e'.Name = e.Name ∧ e'.Subnet = e.Subnet ∧ e'.Listener = e.Listener ∧
      e'.Lifecycle = e.Lifecycle := by
  refine ⟨{ e with ID := some lb.ID, PortID := some lb.VipPortID,
                   VipSubnet := some lb.VipSubnetID },
    ?_, rfl, rfl, rfl, rfl, rfl, rfl, rfl⟩
  simp [LB.RenderOpenstack, hlist, hcreate]

/-- Witness for C5 at a concrete task and provider. -/
theorem C5_render_create_witness :
    ∃ e', LB.RenderOpenstack exCloud none exNew exNew =
        (.ok e', [.listSubnets (stringValue exNew.Subnet),
                  .createLB (stringValue exNew.Name) "subnet-id-1"]) ∧
      e'.ID = some "lb-id-new" ∧ e'.PortID = some "port-new" ∧
      e'.VipSubnet = some "subnet-id-1" ∧
      e'.Name = exNew.Name ∧ e'.Subnet = exNew.Subnet ∧ e'.Listener = exNew.Listener ∧
      e'.Lifecycle = exNew.Lifecycle :=
  C5_render_create exCloud exNew exNew ⟨"subnet-id-1", "subnet-name"⟩
    ⟨"lb-id-new", "lb-name", "port-new", "subnet-id-1"⟩ rfl rfl

/-- C6: the write backoff policy is exactly
`{initial delay 1s, factor 1.5, jitter 0.1, 5 steps}`, and the read
policy retries strictly fewer times with no slower delay growth (and no
longer initial delay). -/
theorem C6_backoff_policies :
    writeBackoff = ⟨timeSecond, 3/2, 1/10, 5⟩ ∧
    readBackoff.Steps < writeBackoff.Steps ∧
    readBackoff.Factor ≤ writeBackoff.Factor ∧
    readBackoff.Duration ≤ writeBackoff.Duration := by
  refine ⟨rfl, by norm_num [readBackoff, writeBackoff], ?_, le_refl _⟩
  norm_num [readBackoff, writeBackoff]

/-- C7: each retry-wrapped cloud operation's error result equals the
common epilogue applied to its retry outcome, and that epilogue returns
`wait.ErrWaitTimeout` when the attempt budget was exhausted with no done
signal and no propagated error, and returns the inner operation's error
whenever one was propagated. -/
theorem C7_retry_error_epilogue (p : CinderProvider) (serverID volumeID id : String)
    (tags : List (String × String)) (htags : tags ≠ []) (hid : id ≠ "") :
    (ListVolumes p).2 =
      retryErrOut (RetryWithBackoff readBackoff.Steps (listVolumesOp p)) ∧
    (CreateVolume p).2 =
      retryErrOut (RetryWithBackoff writeBackoff.Steps (createVolumeOp p)) ∧
    (AttachVolume p serverID volumeID).2 =
      retryErrOut (RetryWithBackoff writeBackoff.Steps (attachVolumeOp p serverID volumeID)) ∧
    (SetVolumeTags p id tags).1 =
      retryErrOut (RetryWithBackoff writeBackoff.Steps (setVolumeTagsOp p id tags)) ∧
    (∀ (α : Type) (r : RetryOutcome α),
      (r.done = false → r.err = none → retryErrOut r = some errWaitTimeout) ∧
      (∀ e, r.err = some e → retryErrOut r = some e)) := by
  refine ⟨?_, ?_, ?_, ?_, ?_⟩
  · unfold ListVolumes retryErrOut
    generalize RetryWithBackoff readBackoff.Steps (listVolumesOp p) = r
    rcases r with ⟨v, done, err, n⟩
    cases err <;> cases done <;> simp
  · unfold CreateVolume retryErrOut
    generalize RetryWithBackoff writeBackoff.Steps (createVolumeOp p) = r
    rcases r with ⟨v, done, err, n⟩
    cases err <;> cases done <;> simp
  · unfold AttachVolume retryErrOut
    generalize RetryWithBackoff writeBackoff.Steps (attachVolumeOp p serverID volumeID) = r
    rcases r with ⟨v, done, err, n⟩
    cases err <;> cases done <;> simp
  · unfold SetVolumeTags retryErrOut
    rw [if_neg (by simpa using htags), if_neg hid]
    generalize RetryWithBackoff writeBackoff.Steps (setVolumeTagsOp p id tags) = r
    rcases r with ⟨v, done, err, n⟩
    cases err <;> cases done <;> simp
  · intro α r
    rcases r with ⟨v, done, err, n⟩
    refine ⟨fun hd he => ?_, fun e he => ?_⟩ <;>
      cases err <;> cases done <;> simp_all [retryErrOut]

/-- Witness for C7: a provider whose update always fails propagates the
wrapped inner error through `SetVolumeTags`. -/
theorem C7_retry_error_epilogue_witness :
    (SetVolumeTags cinderFail "vol-1" [("k", "v")]).1 =
      some "error setting tags to cinder volume \"vol-1\": boom" := by
  have h := (C7_retry_error_epilogue cinderFail "srv-1" "vol-1" "vol-1" [("k", "v")]
    (by decide) (by decide)).2.2.2.1
  rw [h]
  rfl

/-- C8 counterexample: a task map holding one `Instance` task.  The LB
references no task through any of its fields (its field-referenced set is
empty), yet `GetDependencies` returns the instance task — the dependency
set is not "exactly the other tasks it references through one of its
fields". -/
theorem C8_getDependencies_counterexample :
    LB.GetDependencies [("instance-a", .instanceTask ⟨"instance-a"⟩)] =
      [.instanceTask ⟨"instance-a"⟩] ∧
    LB.fieldReferencedTasks exNew [("instance-a", .instanceTask ⟨"instance-a"⟩)] = [] :=
  ⟨rfl, rfl⟩

/-- C8 amended: `GetDependencies` returns exactly the tasks of the map
whose dynamic type is `Subnet`, `ServerGroup` or `Instance` — selection
by task type over the whole map, independent of the LB's fields — and it
never matches on task names: renaming every key leaves the result
unchanged. -/
theorem C8_getDependencies_by_type (tasks : List (String × Task)) (t : Task) :
    (t ∈ LB.GetDependencies tasks ↔
      (∃ n, (n, t) ∈ tasks) ∧ t.isDependencyKind = true) ∧
    (∀ f : String → String,
      LB.GetDependencies (tasks.map (fun p => (f p.1, p.2))) =
        LB.GetDependencies tasks) := by
  constructor
  · unfold LB.GetDependencies
    simp only [List.mem_map, List.mem_filter]
    constructor
    · rintro ⟨⟨n, u⟩, ⟨hmem, hkind⟩, rfl⟩
      exact ⟨⟨n, hmem⟩, hkind⟩
    · rintro ⟨⟨n, hmem⟩, hkind⟩
      exact ⟨(n, t), ⟨hmem, hkind⟩, rfl⟩
  · intro f
    unfold LB.GetDependencies
    induction tasks with
    | nil => rfl
    | cons hd tl ih =>
      rcases hd with ⟨n, u⟩
      by_cases h : u.isDependencyKind
      · simpa [List.filter_cons, h] using ih
      · simpa [List.filter_cons, h] using ih

/-- C9: `SetVolumeTags` with an empty tag map returns nil with zero
provider calls (whatever the volume id, including the empty one); with a
non-empty tag map and an empty volume id it returns the "unknown volume"
error with zero provider calls. -/
theorem C9_setVolumeTags_early_returns (p : CinderProvider) (id : String)
    (tags : List (String × String)) :
    (tags = [] → SetVolumeTags p id tags = (none, 0)) ∧
    (tags ≠ [] →
      SetVolumeTags p "" tags = (some "error setting tags to unknown volume", 0)) := by
  constructor
  · intro h
    simp [SetVolumeTags, h]
  · intro h
    rw [SetVolumeTags, if_neg (by simpa using h), if_pos rfl]

/-- Witness for C9 at concrete inputs: empty id, non-empty tags. -/
theorem C9_setVolumeTags_early_returns_witness :
    SetVolumeTags cinderOk "" [("k", "v")] =
      (some "error setting tags to unknown volume", 0) :=
  (C9_setVolumeTags_early_returns cinderOk "" [("k", "v")]).2 (by decide)

/-- C10: `GetIDForServerGroupName` ignores the error component of the
listing result entirely; when no listed group matches it returns the
"ID not found" error (so a failed listing, which comes with no listed
groups, is reported identically to the group not existing); when some
group matches it returns the ID of the first match. -/
theorem C10_getIDForServerGroupName_spec (groups : List ServerGroup)
    (err : Option String) (name : String) :
    (∀ err', GetIDForServerGroupName (groups, err) name =
      GetIDForServerGroupName (groups, err') name) ∧
    ((∀ g ∈ groups, g.Name ≠ name) →
      GetIDForServerGroupName (groups, err) name =
        .error ("ID not found for Server Group Name " ++ name ++ ".")) ∧
    (∀ pre g post, groups = pre ++ g :: post → g.Name = name →
      (∀ g' ∈ pre, g'.Name ≠ name) →
      GetIDForServerGroupName (groups, err) name = .ok g.ID) := by
  refine ⟨fun _ => rfl, ?_, ?_⟩
  · intro h
    unfold GetIDForServerGroupName
    have : groups.find? (fun g => g.Name == name) = none := by
      rw [List.find?_eq_none]
      intro g hg
      simpa using h g hg
    simp [this]
  · intro pre g post hgroups hname hpre
    subst hgroups
    unfold GetIDForServerGroupName
    induction pre with
    | nil => simp [List.find?, hname]
    | cons hd tl ih =>
      have hhd : (hd.Name == name) = false := by
        simpa using hpre hd (List.mem_cons_self hd tl)
      have ih' := ih (fun g' hg' => hpre g' (List.mem_cons_of_mem hd hg'))
      simpa [List.cons_append, List.find?, hhd] using ih'

/-- Witness for C10: a failed listing paired with two groups; the first
matching group's ID is returned. -/
theorem C10_getIDForServerGroupName_spec_witness :
    GetIDForServerGroupName ([⟨"sg-1", "other"⟩, ⟨"sg-2", "master"⟩], some "listing failed")
      "master" = .ok "sg-2" :=
  (C10_getIDForServerGroupName_spec [⟨"sg-1", "other"⟩, ⟨"sg-2", "master"⟩]
      (some "listing failed") "master").2.2
    [⟨"sg-1", "other"⟩] ⟨"sg-2", "master"⟩ [] rfl rfl (by decide)

end Kops
